import Mathlib

/-!
Shallow embedding of the quill-image-upload module (src/src/image-upload.js).
The file holds two variants of the ImageUpload class; the functions modelled
here (sendToServer, insert, the toolbar onchange handler, readFiles,
handlePaste, the xhr onload handler) are taken line by line from the source.
JavaScript truthiness of optional string options (undefined and the empty
string are falsy) is modelled explicitly, since the source tests options with
the logical-or operator.
-/

namespace ImageUpload

/-- A pending file or clipboard item. `type` is its MIME type, `dataUri` is
the string the host FileReader.readAsDataURL would deliver for it, `blobOk`
records whether the extracted blob (file.getAsFile() when present, else the
item itself) is an instance of Blob. -/
structure FileV where
  type : String
  dataUri : String
  blobOk : Bool
deriving DecidableEq, Repr

/-- CSRF descriptor from the configuration: options.csrf = (token, hash). -/
structure Csrf where
  token : String
  hash : String
deriving DecidableEq, Repr

/-- The configuration object saved by the constructor. Optional string
options are `Option String`; `customUploader` records whether
options.customUploader holds a (truthy) function. Callback overrides
(callbackOK, callbackKO, checkBeforeSend) do not influence which path runs,
so they are not carried here; the default callbacks are modelled below. -/
structure Options where
  customUploader : Bool
  url : Option String
  method : Option String
  name : Option String
  headers : List (String × String)
  csrf : Option Csrf
  withCredentials : Bool
deriving DecidableEq, Repr

/-- JavaScript truthiness of an optional string: undefined (none) and the
empty string are falsy, every other string is truthy. -/
def strTruthy : Option String → Bool
  | none => false
  | some s => !(s == "")

/-- The JavaScript idiom `opt || d` for an optional string option: the
default is used when the option is undefined or the empty string. -/
def orDefault (opt : Option String) (d : String) : String :=
  match opt with
  | none => d
  | some s => if s == "" then d else s

/-- One entry of the multipart FormData built on the network path. -/
inductive FormEntry where
  | fileField (key : String) (f : FileV)
  | textField (key : String) (value : String)
deriving DecidableEq, Repr

/-- The XMLHttpRequest assembled by sendToServer on the network path:
xhr.open(method, url, true), custom headers, fd entries, withCredentials. -/
structure XhrRequest where
  method : String
  url : String
  headers : List (String × String)
  formData : List FormEntry
  withCredentials : Bool
deriving DecidableEq, Repr

/-- The FormData and request construction of sendToServer (lines 66-110 of
the source): fd.append(name || 'image', file); if (options.csrf)
fd.append(csrf.token, csrf.hash); xhr.open(method || 'POST', url, true);
headers applied verbatim; withCredentials set from the flag. -/
def buildRequest (o : Options) (f : FileV) : XhrRequest :=
  { method := orDefault o.method "POST"
  , url := o.url.getD ""
  , headers := o.headers
  , formData :=
      FormEntry.fileField (orDefault o.name "image") f ::
        (match o.csrf with
         | some c => [FormEntry.textField c.token c.hash]
         | none => [])
  , withCredentials := o.withCredentials }

/-- The observable effect of one sendToServer(file) call.
`customCall f` : options.customUploader(file, dataUrl => this.insert(dataUrl))
was invoked, nothing else ran.
`xhrSend req` : the built-in XMLHttpRequest was opened and sent; its onload
handler is modelled by `onXhrLoad`.
`fileReadOK payload` : no network activity; a FileReader read the file as a
data URI and callbackOK(payload, this.insert) was invoked with it. -/
inductive SendEffect where
  | customCall (f : FileV)
  | xhrSend (req : XhrRequest)
  | fileReadOK (payload : String)
deriving DecidableEq, Repr

/-- sendToServer(file), lines 59-120 of the source: if
(this.options.customUploader) run it; else if (url) build and send the
request; else read the file locally as a base64 data URI and hand it to the
success callback. -/
def sendToServer (o : Options) (f : FileV) : SendEffect :=
  if o.customUploader then
    SendEffect.customCall f
  else if strTruthy o.url then
    SendEffect.xhrSend (buildRequest o f)
  else
    SendEffect.fileReadOK f.dataUri

/-- A parsed JSON document as produced by the host JSON.parse; the module
passes it through opaquely, so its structure is irrelevant here. -/
inductive JsonValue where
  | mk (repr : String)
deriving DecidableEq, Repr

/-- A completed response on the network path. `parsedBody` is the outcome of
the host JSON.parse applied to `responseText`: some value when the body
parses, none when JSON.parse would throw. -/
structure XhrResponse where
  status : Nat
  statusText : String
  responseText : String
  parsedBody : Option JsonValue
deriving DecidableEq, Repr

/-- Outcome of the xhr.onload handler.
`ok payload` : callbackOK(payload, this.insert) was invoked.
`ko code type body` : callbackKO was invoked with the structured object
holding code, type and body.
`thrown` : JSON.parse threw inside the handler and the exception escaped
uncaught. -/
inductive HandlerResult where
  | ok (payload : JsonValue)
  | ko (code : Nat) (type : String) (body : String)
  | thrown
deriving DecidableEq, Repr

/-- The xhr.onload handler, lines 94-104 of the source: on status 200 it
calls callbackOK(JSON.parse(xhr.responseText), this.insert.bind(this));
JSON.parse throws on an unparseable body and nothing catches it. On any
other status it calls callbackKO with code, type and body taken from the
response. -/
def onXhrLoad (r : XhrResponse) : HandlerResult :=
  if r.status = 200 then
    match r.parsedBody with
    | some v => HandlerResult.ok v
    | none => HandlerResult.thrown
  else
    HandlerResult.ko r.status r.statusText r.responseText

/-- True exactly when the handler invoked the success callback. -/
def isOK : HandlerResult → Bool
  | HandlerResult.ok _ => true
  | _ => false

/-- Snapshot of the host editor state read by insert at call time:
quill.getSelection() (none when there is no selection, some index otherwise)
and quill.getLength(). -/
structure QuillState where
  sel : Option Nat
  len : Nat
deriving DecidableEq, Repr

/-- The index computation of insert, line 127-128 of the source:
(this.quill.getSelection() || \x7b\x7d).index || this.quill.getLength().
When no selection exists the property access yields undefined, which is
falsy; when a selection at index 0 exists, 0 is also falsy, so the
logical-or falls through to the document length in both cases. -/
def insertIndex (sel : Option Nat) (len : Nat) : Nat :=
  match sel with
  | none => len
  | some i => if i = 0 then len else i

/-- The embed mutation issued to the editor:
quill.insertEmbed(index, 'image', dataUrl, 'user'). -/
structure EmbedOp where
  index : Nat
  embedType : String
  payload : String
  source : String
deriving DecidableEq, Repr

/-- insert(dataUrl), lines 126-130 of the source: computes the index from
the current selection and length and issues the embed as a user edit. -/
def insert (q : QuillState) (dataUrl : String) : EmbedOp :=
  { index := insertIndex q.sel q.len
  , embedType := "image"
  , payload := dataUrl
  , source := "user" }

/-- The module instance state established by the constructor: it stores the
options (and the quill reference, whose observable part at insert time is
the QuillState snapshot passed per call). No method of the class writes any
instance field after construction. -/
structure ModuleState where
  options : Options
deriving DecidableEq, Repr

/-- One call of insert as a state transition of the module: the source body
of insert reads the editor and issues the embed but assigns no instance
field, so the module state is returned unchanged. -/
def insertCall (m : ModuleState) (q : QuillState) (dataUrl : String) :
    ModuleState × EmbedOp :=
  (m, insert q dataUrl)

/-- The default success callback uploadImageCallbackOK(response, next):
a pass-through that forwards the payload to the continuation. -/
def uploadImageCallbackOK (response : JsonValue) (next : JsonValue → EmbedOp) :
    EmbedOp :=
  next response

/-- The default pre-send check checkBeforeSend(file, next): a pass-through
that forwards the file to the continuation. -/
def checkBeforeSend (file : FileV) (next : FileV → SendEffect) : SendEffect :=
  next file

/-- The anchored regex test of the source (image slash at the start of the
string): true exactly when the MIME type string begins with image/. -/
def isImageType (t : String) : Bool :=
  "image/".data.isPrefixOf t.data

/-- Outcome of the input.onchange handler installed by selectLocalImage.
`proceed f` : the MIME test passed and checkBeforeSend(file,
this.sendToServer.bind(this)) was invoked with the file.
`warned` : console.warn was called and nothing else happened: no pre-send
check, no send, no insert, no alert, no document mutation. -/
inductive IntakeResult where
  | proceed (f : FileV)
  | warned
deriving DecidableEq, Repr

/-- The input.onchange body of selectLocalImage, lines 32-43 of the source:
the chosen file proceeds only when its MIME type matches the anchored
image/ pattern, otherwise only a console warning is emitted. -/
def selectLocalImageOnChange (f : FileV) : IntakeResult :=
  if isImageType f.type then IntakeResult.proceed f
  else IntakeResult.warned

/-- Outcome of readFiles for one entry of the dropped or pasted list.
`skipNonImage` : the MIME test failed and the entry was skipped before any
reader was started; the callback chain never runs.
`skipNonBlob` : the MIME test passed but the extracted blob was not an
instance of Blob, so readAsDataURL was never called, the onload handler
never fires and the callback is never invoked.
`checkCalled f` : the reader completed and the onload handler invoked
checkBeforeSend(file, callback) with the original file object. -/
inductive ReadOutcome where
  | skipNonImage
  | skipNonBlob
  | checkCalled (f : FileV)
deriving DecidableEq, Repr

/-- One iteration of the readFiles loop, lines 320-342 of the source: skip
entries whose type fails the image/ test; otherwise set up a FileReader
whose onload runs checkBeforeSend(file, callback), extract the blob via
file.getAsFile() when available, and start the read only when the blob is
an instance of Blob. -/
def readFilesEntry (f : FileV) : ReadOutcome :=
  if isImageType f.type then
    if f.blobOk then ReadOutcome.checkCalled f
    else ReadOutcome.skipNonBlob
  else
    ReadOutcome.skipNonImage

/-- readFiles(files, callback): each entry is processed independently by the
per-entry loop body. -/
def readFiles (files : List FileV) : List ReadOutcome :=
  files.map readFilesEntry

/-- The value handed to checkBeforeSend by the reader.onload closure inside
readFiles: either the original file object or a decoded data URI string. -/
inductive CheckArg where
  | fileArg (f : FileV)
  | uriArg (s : String)
deriving DecidableEq, Repr

/-- The reader.onload closure inside readFiles, lines 330-335 of the source:
it receives the read event whose target.result is the decoded data URI, but
passes the captured original file to checkBeforeSend; the reader result is
discarded (the line forwarding evt.target.result is commented out). -/
def readFilesOnload (f : FileV) (_readerResult : String) : CheckArg :=
  CheckArg.fileArg f

/-- What the paste callback does for one delivered value.
`nothingDone` : a selection existed, so the handler assumes the browser
already placed the content and performs no insertion at all.
`deferredSend v` : no selection existed; setTimeout defers
this.sendToServer(v) to the next scheduler tick (the direct insert call is
commented out in the source). -/
inductive PasteAction where
  | nothingDone
  | deferredSend (v : FileV)
deriving DecidableEq, Repr

/-- The callback handlePaste passes to readFiles, lines 299-311 of the
source, evaluated at the selection state observed at callback time. -/
def pasteCallback (sel : Option Nat) (v : FileV) : PasteAction :=
  match sel with
  | some _ => PasteAction.nothingDone
  | none => PasteAction.deferredSend v

/-- End-to-end behaviour of handlePaste for one clipboard item under the
default checkBeforeSend (which forwards the original file to the callback):
none when the readFiles loop never invokes the callback for the item, and
otherwise the paste callback action for the forwarded file. -/
def handlePasteItem (sel : Option Nat) (f : FileV) : Option PasteAction :=
  match readFilesEntry f with
  | ReadOutcome.checkCalled g => some (pasteCallback sel g)
  | _ => none

/-- handlePaste over the clipboard item list, lines 297-313 of the source. -/
def handlePaste (sel : Option Nat) (items : List FileV) : List PasteAction :=
  items.filterMap (handlePasteItem sel)

/-- Claim C1: per file, exactly one of the two send paths executes. When
options.customUploader is set, sendToServer runs only the custom uploader,
regardless of url; when it is absent, sendToServer never runs the custom
path and runs exactly the built-in network or base64 logic. -/
theorem C1_send_paths_exclusive (o : Options) (f : FileV) :
    (o.customUploader = true → sendToServer o f = SendEffect.customCall f) ∧
    (o.customUploader = false → sendToServer o f ≠ SendEffect.customCall f) ∧
    (o.customUploader = false →
      sendToServer o f = SendEffect.xhrSend (buildRequest o f) ∨
      sendToServer o f = SendEffect.fileReadOK f.dataUri) := by
  refine ⟨fun h => by simp [sendToServer, h], fun h => ?_, fun h => ?_⟩
  · simp only [sendToServer, h, Bool.false_eq_true, if_false]
    split <;> simp
  · simp only [sendToServer, h, Bool.false_eq_true, if_false]
    split
    · exact Or.inl rfl
    · exact Or.inr rfl

/-- Witness for C1 at concrete configurations: with customUploader set and a
url also set the custom path runs, and with customUploader absent the custom
path does not run. -/
theorem C1_send_paths_exclusive_witness :
    sendToServer ⟨true, some "http://x", none, none, [], none, false⟩
        ⟨"image/png", "d", true⟩
      = SendEffect.customCall ⟨"image/png", "d", true⟩ ∧
    sendToServer ⟨false, some "http://x", none, none, [], none, false⟩
        ⟨"image/png", "d", true⟩
      ≠ SendEffect.customCall ⟨"image/png", "d", true⟩ :=
  ⟨(C1_send_paths_exclusive _ _).1 rfl, (C1_send_paths_exclusive _ _).2.1 rfl⟩

/-- Claim C2 (code bug): the claim and the source doc comment say insert
places the embed at the current cursor position whenever a selection
exists, index 0 included. The source computes
(getSelection() || \x7b\x7d).index || getLength(), and 0 is falsy, so a
selection at index 0 is sent to the document end instead: with selection
index 0 and length 5 the embed lands at 5, not 0. The non-zero and
no-selection branches behave as claimed. -/
theorem C2_insert_index_zero_bug :
    insertIndex (some 0) 5 = 5 ∧
    insert ⟨some 0, 5⟩ "data:x" =
      { index := 5, embedType := "image", payload := "data:x", source := "user" } ∧
    insertIndex (some 3) 9 = 3 ∧
    insertIndex none 9 = 9 :=
  ⟨rfl, rfl, rfl, rfl⟩

/-- Claim C3: with neither a truthy url nor a custom uploader configured,
sendToServer performs no network request and delivers the base64 data URI
of the file to the success callback (fileReadOK means
callbackOK(dataUri, this.insert) after a local FileReader read). -/
theorem C3_no_url_no_uploader_base64 (o : Options) (f : FileV)
    (hc : o.customUploader = false) (hu : strTruthy o.url = false) :
    sendToServer o f = SendEffect.fileReadOK f.dataUri ∧
    ∀ req, sendToServer o f ≠ SendEffect.xhrSend req := by
  simp [sendToServer, hc, hu]

/-- Witness for C3 at an empty configuration and a concrete file. -/
theorem C3_no_url_no_uploader_base64_witness :
    sendToServer ⟨false, none, none, none, [], none, false⟩
        ⟨"image/png", "data:image/png;base64,AA", true⟩
      = SendEffect.fileReadOK "data:image/png;base64,AA" :=
  (C3_no_url_no_uploader_base64 ⟨false, none, none, none, [], none, false⟩
    ⟨"image/png", "data:image/png;base64,AA", true⟩ rfl rfl).1

/-- Claim C4 counterexample: the claim says the success callback is invoked
if and only if the status is exactly 200, but at status 200 with a body
JSON.parse cannot handle, the handler throws instead of invoking the
success callback, so the if-and-only-if fails. -/
theorem C4_success_iff_200_cx :
    (⟨200, "OK", "not-json", none⟩ : XhrResponse).status = 200 ∧
    isOK (onXhrLoad ⟨200, "OK", "not-json", none⟩) = false :=
  ⟨rfl, rfl⟩

/-- Claim C4 as amended: the success callback is invoked if and only if the
status is exactly 200 and the body is JSON-parseable; every non-200 status
(other 2xx codes included) invokes the failure callback with the structured
object built from code, statusText and responseText. -/
theorem C4_success_iff_200_and_parseable (r : XhrResponse) :
    (isOK (onXhrLoad r) = true ↔ r.status = 200 ∧ r.parsedBody.isSome = true) ∧
    (r.status ≠ 200 →
      onXhrLoad r = HandlerResult.ko r.status r.statusText r.responseText) := by
  constructor
  · unfold onXhrLoad
    by_cases h : r.status = 200
    · cases hp : r.parsedBody <;> simp [h, hp, isOK]
    · simp [h, isOK]
  · intro h
    simp [onXhrLoad, h]

/-- Witness for C4 at a concrete 404 response. -/
theorem C4_success_iff_200_and_parseable_witness :
    onXhrLoad ⟨404, "Not Found", "missing", none⟩
      = HandlerResult.ko 404 "Not Found" "missing" :=
  (C4_success_iff_200_and_parseable ⟨404, "Not Found", "missing", none⟩).2
    (by decide)

/-- Claim C5: a file whose MIME type does not start with image/ is dropped
by both intake paths before anything else runs: the toolbar onchange
handler only warns (no pre-send check, no send, no insert, no alert), and
the readFiles loop skips the entry without starting a reader. -/
theorem C5_non_image_dropped (f : FileV)
    (h : isImageType f.type = false) :
    selectLocalImageOnChange f = IntakeResult.warned ∧
    readFilesEntry f = ReadOutcome.skipNonImage := by
  simp [selectLocalImageOnChange, readFilesEntry, h]

/-- Witness for C5 at a concrete non-image file. -/
theorem C5_non_image_dropped_witness :
    selectLocalImageOnChange ⟨"text/plain", "d", true⟩ = IntakeResult.warned ∧
    readFilesEntry ⟨"text/plain", "d", true⟩ = ReadOutcome.skipNonImage :=
  C5_non_image_dropped _ (by decide)

/-- Claim C6 counterexample: the claim says the outcome handler never
throws across the asynchronous boundary; at a status-200 response whose
body is not parseable as JSON, JSON.parse throws inside the onload handler
and nothing catches it. -/
theorem C6_no_throw_cx :
    onXhrLoad ⟨200, "OK", "bad json body", none⟩ = HandlerResult.thrown :=
  rfl

/-- Claim C6 as amended: for every response except a status-200 response
with an unparseable body, the handler does not throw and every error is
delivered through the failure callback; a 200 response whose body fails
JSON.parse throws uncaught across the asynchronous boundary. -/
theorem C6_no_throw_except_unparseable_200 (r : XhrResponse)
    (h : r.status = 200 → r.parsedBody.isSome = true) :
    onXhrLoad r ≠ HandlerResult.thrown := by
  unfold onXhrLoad
  by_cases h2 : r.status = 200
  · have hp := h h2
    cases hq : r.parsedBody with
    | none => rw [hq] at hp; cases hp
    | some v => simp [h2, hq]
  · simp [h2]

/-- Witness for C6 at a concrete 500 response. -/
theorem C6_no_throw_except_unparseable_200_witness :
    onXhrLoad ⟨500, "Server Error", "oops", none⟩ ≠ HandlerResult.thrown :=
  C6_no_throw_except_unparseable_200 ⟨500, "Server Error", "oops", none⟩
    (by decide)

/-- Claim C7 counterexample: the claim says the paste handler inserts the
decoded data URI directly into the document and defers the insertion when
no selection exists. On a pasted image item with a selection present, the
handler performs no insertion at all, and with no selection it defers
sendToServer applied to the original item rather than inserting its data
URI. -/
theorem C7_paste_inserts_cx :
    handlePasteItem (some 1) ⟨"image/png", "data:image/png;base64,QUJD", true⟩
      = some PasteAction.nothingDone ∧
    handlePasteItem none ⟨"image/png", "data:image/png;base64,QUJD", true⟩
      = some (PasteAction.deferredSend
          ⟨"image/png", "data:image/png;base64,QUJD", true⟩) := by
  exact ⟨by decide, by decide⟩

/-- Claim C7 as amended: the paste handler filters clipboard items to image
MIME types and reads each as a data URI, but the decoded URI is discarded;
the original item is forwarded to the paste callback, which does nothing
when a selection exists (the browser is assumed to have placed the content)
and defers sendToServer on the original item to the next scheduler tick
when no selection exists. -/
theorem C7_paste_defers_send_of_file (sel : Option Nat) (f : FileV) :
    (isImageType f.type = false → handlePasteItem sel f = none) ∧
    (isImageType f.type = true → f.blobOk = true →
      handlePasteItem sel f = some (pasteCallback sel f)) := by
  constructor
  · intro h
    simp [handlePasteItem, readFilesEntry, h]
  · intro h1 h2
    simp [handlePasteItem, readFilesEntry, h1, h2]

/-- Witness for C7 at a concrete image item with no selection. -/
theorem C7_paste_defers_send_of_file_witness :
    handlePasteItem none ⟨"image/gif", "data:image/gif;base64,QQ", true⟩
      = some (PasteAction.deferredSend
          ⟨"image/gif", "data:image/gif;base64,QQ", true⟩) :=
  (C7_paste_defers_send_of_file none _).2 (by decide) rfl

/-- Claim C8 counterexample: the claim says a present option value is
always used; with method and name both present but equal to the empty
string (falsy in JavaScript), the request still uses POST and the file
field is still keyed image, so the present values are not used. -/
theorem C8_defaults_cx :
    (buildRequest ⟨false, some "http://x", some "", some "", [], none, false⟩
        ⟨"image/png", "d", true⟩).method = "POST" ∧
    (buildRequest ⟨false, some "http://x", some "", some "", [], none, false⟩
        ⟨"image/png", "d", true⟩).formData
      = [FormEntry.fileField "image" ⟨"image/png", "d", true⟩] ∧
    sendToServer ⟨false, some "http://x", some "", some "", [], none, false⟩
        ⟨"image/png", "d", true⟩
      = SendEffect.xhrSend
          (buildRequest ⟨false, some "http://x", some "", some "", [], none, false⟩
            ⟨"image/png", "d", true⟩) := by
  refine ⟨by decide, by decide, by decide⟩

/-- Claim C8 as amended: on the built-in network path the request method is
POST when options.method is absent or empty, and the file field is keyed
image when options.name is absent or empty; a present non-empty value is
used as given (JavaScript logical-or truthiness). -/
theorem C8_method_name_defaults (o : Options) (f : FileV) (req : XhrRequest)
    (h : sendToServer o f = SendEffect.xhrSend req) :
    ((o.method = none ∨ o.method = some "") → req.method = "POST") ∧
    (∀ m, o.method = some m → m ≠ "" → req.method = m) ∧
    ((o.name = none ∨ o.name = some "") →
      req.formData.head? = some (FormEntry.fileField "image" f)) ∧
    (∀ n, o.name = some n → n ≠ "" →
      req.formData.head? = some (FormEntry.fileField n f)) := by
  have hreq : req = buildRequest o f := by
    simp only [sendToServer] at h
    split at h
    · simp at h
    · split at h
      · simp only [SendEffect.xhrSend.injEq] at h
        exact h.symm
      · simp at h
  subst hreq
  refine ⟨?_, ?_, ?_, ?_⟩
  · rintro (hm | hm) <;> simp [buildRequest, orDefault, hm]
  · intro m hm hne
    simp [buildRequest, orDefault, hm, hne]
  · rintro (hn | hn) <;> simp [buildRequest, orDefault, hn]
  · intro n hn hne
    simp [buildRequest, orDefault, hn, hne]

/-- Witness for C8 at a configuration with method absent and a non-empty
name present. -/
theorem C8_method_name_defaults_witness :
    (buildRequest ⟨false, some "http://x", none, some "avatar", [], none, false⟩
        ⟨"image/png", "d", true⟩).method = "POST" ∧
    (buildRequest ⟨false, some "http://x", none, some "avatar", [], none, false⟩
        ⟨"image/png", "d", true⟩).formData.head?
      = some (FormEntry.fileField "avatar" ⟨"image/png", "d", true⟩) := by
  have h := C8_method_name_defaults
    ⟨false, some "http://x", none, some "avatar", [], none, false⟩
    ⟨"image/png", "d", true⟩
    (buildRequest ⟨false, some "http://x", none, some "avatar", [], none, false⟩
      ⟨"image/png", "d", true⟩)
    (by decide)
  exact ⟨h.1 (Or.inl rfl), h.2.2.2 "avatar" rfl (by decide)⟩

/-- Claim C9: insert is stateless across calls. A call returns the module
state unchanged, and the embed issued by the second of two calls equals the
embed of a fresh single call at the second editor state: each call is
computed only from the selection and length at its own call time. -/
theorem C9_insert_stateless (m : ModuleState) (q1 q2 : QuillState) (d : String) :
    (insertCall m q1 d).1 = m ∧
    (insertCall m q1 d).2 = insert q1 d ∧
    (insertCall (insertCall m q1 d).1 q2 d).2 = insert q2 d ∧
    (insertCall (insertCall m q1 d).1 q2 d).2 = (insertCall m q2 d).2 :=
  ⟨rfl, rfl, rfl, rfl⟩

/-- Claim C10: the reader.onload closure of readFiles passes the original
file object to the pre-send check, never a data URI, independently of the
value the FileReader produced; and an image entry whose extracted blob is
not a Blob is skipped without the callback ever being invoked. -/
theorem C10_readfiles_passes_file (f : FileV) (r1 r2 : String) :
    readFilesOnload f r1 = CheckArg.fileArg f ∧
    readFilesOnload f r1 = readFilesOnload f r2 ∧
    (∀ s, readFilesOnload f r1 ≠ CheckArg.uriArg s) ∧
    (isImageType f.type = true → f.blobOk = false →
      readFilesEntry f = ReadOutcome.skipNonBlob) := by
  refine ⟨rfl, rfl, fun s => by simp [readFilesOnload], fun h1 h2 => ?_⟩
  simp [readFilesEntry, h1, h2]

/-- Witness for C10 at a concrete image item whose blob extraction fails. -/
theorem C10_readfiles_passes_file_witness :
    readFilesOnload ⟨"image/png", "data:DU", false⟩ "ignored"
      = CheckArg.fileArg ⟨"image/png", "data:DU", false⟩ ∧
    readFilesEntry ⟨"image/png", "data:DU", false⟩ = ReadOutcome.skipNonBlob := by
  have h := C10_readfiles_passes_file ⟨"image/png", "data:DU", false⟩ "ignored" "other"
  exact ⟨h.1, h.2.2.2 (by decide) rfl⟩

end ImageUpload
